import Mathlib

/-!
Shallow embedding of the Biology Learning API backend (`src/main.py`,
`src/schemas.py`): a document store holding `chapter` and `quizquestion`
collections, plus the HTTP handlers `seed_data`, `get_chapter`,
`create_chapter`, `get_quiz_for_chapter`, `create_quiz_item` and
`test_database`. Documents are modelled as ordered association lists from
string keys to a value type covering the shapes this program stores.
-/

namespace Bio

/-- A stored field value: strings, integers, the store-assigned ObjectId
(abstracted as a `Nat`), Python `None`, lists of strings (`objectives`,
`options`), and lists of string-to-string records (`sections`). -/
inductive Value where
  | str (s : String)
  | int (i : Int)
  | oid (n : Nat)
  | null
  | strList (xs : List String)
  | dictList (xs : List (List (String × String)))
  deriving DecidableEq, Repr

/-- A document: an ordered mapping from string keys to values (Python dict
with string keys; keys are unique in every document this program builds). -/
abbrev Doc := List (String × Value)

/-- Python `str()` applied to a stored value. `serialize` only ever applies
it to the `_id` field, which always holds an ObjectId; for an ObjectId the
result is the identifier rendered as a (non-empty) string. -/
def Value.pyStr : Value → String
  | .str s => s
  | .int i => toString i
  | .oid n => Nat.repr n
  | .null => "None"
  | .strList xs => toString xs
  | .dictList _ => toString "dict"

/-- Look up a key in a document (Python `doc[k]` / `k in doc`). -/
def dget (k : String) : Doc → Option Value
  | [] => Option.none
  | (k1, v) :: rest => if k1 = k then some v else dget k rest

/-- Remove a key from a document (Python `doc.pop(k)`; keys are unique, so
removing every occurrence agrees with popping the single one). -/
def dremove (k : String) : Doc → Doc
  | [] => []
  | (k1, v) :: rest => if k1 = k then dremove k rest else (k1, v) :: dremove k rest

/-- Function `serialize` from `src/main.py`: empty/absent docs pass through; else the
internal `_id` field is popped and re-added at the end as `id`, stringified. -/
def serialize (doc : Doc) : Doc :=
  if doc = [] then doc
  else
    match dget "_id" doc with
    | some v => dremove "_id" doc ++ [("id", Value.str v.pyStr)]
    | Option.none => doc

/-- The document store: the two collections this program uses, plus the next
fresh internal identifier the store will assign. -/
structure DB where
  chapter : List Doc
  quizquestion : List Doc
  nextId : Nat
  deriving DecidableEq, Repr

/-- The empty store. -/
def emptyDB : DB := ⟨[], [], 0⟩

/-- Mongo `find_one(filter)` with a single-field equality filter: the first
document in natural (insertion) order whose field `k` equals `v`. -/
def findOne (docs : List Doc) (k : String) (v : Value) : Option Doc :=
  docs.find? (fun d => decide (dget k d = some v))

/-- Modelled from the spec: `create_document` lives in `database.py`, which
is not under `src/`; per the spec the adapter `insert(collectionName,
document)` stores the document in the named collection and assigns a newly
created unique internal identifier, carried by retrieved documents in the
`_id` field. Insertion into the `chapter` collection. -/
def insertChapter (db : DB) (doc : Doc) : DB :=
  { db with
      chapter := db.chapter ++ [("_id", Value.oid db.nextId) :: doc]
      nextId := db.nextId + 1 }

/-- Modelled from the spec: same adapter insert, for the `quizquestion`
collection (see `insertChapter`). -/
def insertQuiz (db : DB) (doc : Doc) : DB :=
  { db with
      quizquestion := db.quizquestion ++ [("_id", Value.oid db.nextId) :: doc]
      nextId := db.nextId + 1 }

/-- An HTTP error response (`HTTPException(status_code, detail)`). -/
structure HTTPError where
  status : Nat
  detail : String
  deriving DecidableEq, Repr

/-- The `{"status": "ok"}` success body of the creation endpoints. -/
structure OkResp where
  status : String
  deriving DecidableEq, Repr

/-- The `{"status", "message"}` body returned by `/seed`. -/
structure SeedResp where
  status : String
  message : String
  deriving DecidableEq, Repr

/-- Request model `ChapterIn` from `src/main.py`: `objectives` and
`sections` default to empty lists when omitted. -/
structure ChapterIn where
  slug : String
  title : String
  summary : String
  objectives : List String := []
  sections : List (List (String × String)) := []
  deriving DecidableEq, Repr

/-- Dump `ChapterIn.model_dump()`: the request as a stored document. -/
def ChapterIn.model_dump (p : ChapterIn) : Doc :=
  [("slug", Value.str p.slug), ("title", Value.str p.title),
   ("summary", Value.str p.summary), ("objectives", Value.strList p.objectives),
   ("sections", Value.dictList p.sections)]

/-- Request model `QuizIn` from `src/main.py`: `difficulty` is optional with
default `"OSN-N"`; note `options` carries no minimum-length constraint here
(unlike `schemas.QuizQuestion`). -/
structure QuizIn where
  chapter_slug : String
  question : String
  options : List String
  correct_index : Int
  explanation : String
  difficulty : Option String := some "OSN-N"
  deriving DecidableEq, Repr

/-- Dump `QuizIn.model_dump()`: the request as a stored document (an explicit
`null` difficulty dumps to Python `None`). -/
def QuizIn.model_dump (q : QuizIn) : Doc :=
  [("chapter_slug", Value.str q.chapter_slug), ("question", Value.str q.question),
   ("options", Value.strList q.options), ("correct_index", Value.int q.correct_index),
   ("explanation", Value.str q.explanation),
   ("difficulty", match q.difficulty with
                  | some s => Value.str s
                  | Option.none => Value.null)]

/-- Schema model `Chapter` from `src/schemas.py` (used by `seed_data`). -/
structure Chapter where
  slug : String
  title : String
  summary : String
  objectives : List String := []
  sections : List (List (String × String)) := []
  deriving DecidableEq, Repr

/-- A `Chapter` as a stored document. -/
def Chapter.model_dump (c : Chapter) : Doc :=
  [("slug", Value.str c.slug), ("title", Value.str c.title),
   ("summary", Value.str c.summary), ("objectives", Value.strList c.objectives),
   ("sections", Value.dictList c.sections)]

/-- Schema model `QuizQuestion` from `src/schemas.py` (used by `seed_data`);
`difficulty` is a plain string defaulting to `"OSN-N"`. -/
structure QuizQuestion where
  chapter_slug : String
  question : String
  options : List String
  correct_index : Int
  explanation : String
  difficulty : String := "OSN-N"
  deriving DecidableEq, Repr

/-- A `QuizQuestion` as a stored document. -/
def QuizQuestion.model_dump (q : QuizQuestion) : Doc :=
  [("chapter_slug", Value.str q.chapter_slug), ("question", Value.str q.question),
   ("options", Value.strList q.options), ("correct_index", Value.int q.correct_index),
   ("explanation", Value.str q.explanation), ("difficulty", Value.str q.difficulty)]

/-- The constraint `src/schemas.py` declares on `QuizQuestion.options`:
`min_items=2`. -/
def quizOptionsMinOk (q : QuizQuestion) : Prop := 2 ≤ q.options.length

/-- GET `/chapters/{slug}` (`get_chapter` in `src/main.py`): 404 when no
chapter matches the slug, else the matching document serialized. -/
def get_chapter (db : DB) (slug : String) : Except HTTPError Doc :=
  match findOne db.chapter "slug" (Value.str slug) with
  | Option.none => Except.error ⟨404, "Chapter not found"⟩
  | some doc => Except.ok (serialize doc)

/-- POST `/chapters` (`create_chapter` in `src/main.py`): conflict (400)
when the slug already exists, looked up before any insert; else insert the
dumped payload. Returns the store after the call together with the HTTP
outcome. -/
def create_chapter (db : DB) (payload : ChapterIn) : DB × Except HTTPError OkResp :=
  match findOne db.chapter "slug" (Value.str payload.slug) with
  | some _ => (db, Except.error ⟨400, "Slug already exists"⟩)
  | Option.none => (insertChapter db payload.model_dump, Except.ok ⟨"ok"⟩)

/-- GET `/chapters/{slug}/quiz` (`get_quiz_for_chapter` in `src/main.py`):
up to `limit` (default 20) quizquestion documents whose `chapter_slug`
equals `slug`, each serialized. No chapter-existence check. -/
def get_quiz_for_chapter (db : DB) (slug : String) (limit : Nat := 20) : List Doc :=
  ((db.quizquestion.filter
      (fun d => decide (dget "chapter_slug" d = some (Value.str slug)))).take limit).map
    serialize

/-- POST `/quiz` (`create_quiz_item` in `src/main.py`): 400 when
`correct_index` is negative or not below `len(options)`, checked before any
insert; else insert the dumped item. -/
def create_quiz_item (db : DB) (item : QuizIn) : DB × Except HTTPError OkResp :=
  if item.correct_index < 0 ∨ (item.options.length : Int) ≤ item.correct_index then
    (db, Except.error ⟨400, "correct_index out of range"⟩)
  else
    (insertQuiz db item.model_dump, Except.ok ⟨"ok"⟩)

/-- The fixed chapter `seed_data` inserts. -/
def seedChapter : Chapter :=
  { slug := "cell-structure"
    title := "Struktur dan Fungsi Sel"
    summary := "Ikhtisar mandiri tentang struktur dasar sel prokariot dan eukariot, membran, organel, dan aliran energi."
    objectives :=
      ["Membedakan sel prokariot dan eukariot",
       "Menjelaskan fungsi organel utama",
       "Mengaitkan struktur membran dengan transport"]
    sections :=
      [[("heading", "Gambaran Umum Sel"), ("body", "Sel adalah unit dasar kehidupan.")],
       [("heading", "Organel Utama"),
        ("body", "Nukleus, mitokondria, ribosom, retikulum endoplasma, dan lain-lain.")]] }

/-- First fixed quiz question `seed_data` inserts. -/
def seedQ1 : QuizQuestion :=
  { chapter_slug := "cell-structure"
    question := "Komponen apakah yang paling berperan langsung dalam fosforilasi oksidatif pada sel eukariot?"
    options := ["Ribosom", "Mitokondria membran dalam", "Aparatus Golgi", "Peroksisom"]
    correct_index := 1
    explanation := "Rantai transpor elektron dan ATP sintase terletak pada membran dalam mitokondria." }

/-- Second fixed quiz question `seed_data` inserts. -/
def seedQ2 : QuizQuestion :=
  { chapter_slug := "cell-structure"
    question := "Pada model mosaik fluida, fungsi utama kolesterol dalam membran adalah..."
    options := ["Meningkatkan permeabilitas air", "Menstabilkan fluiditas pada rentang suhu",
                "Mengaktifkan pompa ion", "Mengikat glikoprotein"]
    correct_index := 1
    explanation := "Kolesterol membantu menjaga fluiditas membran tetap stabil terhadap perubahan suhu." }

/-- Third fixed quiz question `seed_data` inserts. -/
def seedQ3 : QuizQuestion :=
  { chapter_slug := "cell-structure"
    question := "Manakah mekanisme transport yang memerlukan energi langsung dari ATP?"
    options := ["Difusi sederhana", "Osmosis", "Difusi terfasilitasi", "Transpor aktif primer"]
    correct_index := 3
    explanation := "Transpor aktif primer menggunakan energi ATP untuk memompa molekul melawan gradien." }

/-- The three fixed quiz questions `seed_data` inserts, in order. -/
def sample_questions : List QuizQuestion := [seedQ1, seedQ2, seedQ3]

/-- POST `/seed` (`seed_data` in `src/main.py`): if any chapter document
exists (`find({}).limit(1)` non-empty) return "Already seeded" untouched;
else insert the fixed chapter and the three fixed questions and return
"Seeded". -/
def seed_data (db : DB) : DB × SeedResp :=
  if db.chapter.take 1 ≠ [] then (db, ⟨"ok", "Already seeded"⟩)
  else
    let db1 := insertChapter db seedChapter.model_dump
    let db2 := sample_questions.foldl (fun d q => insertQuiz d q.model_dump) db1
    (db2, ⟨"ok", "Seeded"⟩)

/-- The observable condition of the store when `/test` runs: `db` is `None`,
or the connection is up (with the database name) and listing collection
names either raises (with some message) or returns a list of names. -/
inductive DBCondition where
  | unavailable
  | connected (name : String) (listing : Except String (List String))

/-- The `/test` response body. -/
structure StatusReport where
  backend : String
  database : String
  database_url : Option String
  database_name : Option String
  connection_status : String
  collections : List String
  deriving DecidableEq, Repr

/-- GET `/test` (`test_database` in `src/main.py`), as a function of whether
`DATABASE_URL` is set and of the condition of the store. It always returns a
normal `StatusReport` (HTTP 200): a listing failure only rewrites the
`database` text, and at most 10 collection names are reported. -/
def test_database (urlSet : Bool) : DBCondition → StatusReport
  | DBCondition.unavailable =>
      { backend := "✅ Running"
        database := "⚠️  Available but not initialized"
        database_url := Option.none
        database_name := Option.none
        connection_status := "Not Connected"
        collections := [] }
  | DBCondition.connected name (Except.error e) =>
      { backend := "✅ Running"
        database := "⚠️  Connected but Error: " ++ e.take 50
        database_url := some (if urlSet then "✅ Set" else "❌ Not Set")
        database_name := some name
        connection_status := "Connected"
        collections := [] }
  | DBCondition.connected name (Except.ok cols) =>
      { backend := "✅ Running"
        database := "✅ Connected & Working"
        database_url := some (if urlSet then "✅ Set" else "❌ Not Set")
        database_name := some name
        connection_status := "Connected"
        collections := cols.take 10 }

/-- The length of the `options` list of a document, when the field is present. -/
def docOptionsLength (d : Doc) : Option Nat :=
  match dget "options" d with
  | some (Value.strList xs) => some xs.length
  | _ => Option.none

/-- Whether a stored quiz document satisfies the bound
`0 <= correct_index < len(options)` that `create_quiz_item` validates. -/
def quizDocIndexOk (d : Doc) : Bool :=
  match dget "correct_index" d, dget "options" d with
  | some (Value.int ci), some (Value.strList xs) =>
      decide (0 ≤ ci ∧ ci < (xs.length : Int))
  | _, _ => false

/-! ### Helper lemmas about documents and the store -/

theorem dget_append (k : String) (l l2 : Doc) :
    dget k (l ++ l2) = (dget k l).or (dget k l2) := by
  induction l with
  | nil => simp [dget]
  | cons kv rest ih =>
    obtain ⟨k1, v⟩ := kv
    by_cases h : k1 = k <;> simp [dget, h, ih]

theorem dget_dremove {k k2 : String} (h : k2 ≠ k) (l : Doc) :
    dget k (dremove k2 l) = dget k l := by
  induction l with
  | nil => rfl
  | cons kv rest ih =>
    obtain ⟨k1, v⟩ := kv
    by_cases h1 : k1 = k2
    · subst h1
      simp [dget, dremove, h, ih]
    · by_cases h2 : k1 = k <;> simp [dget, dremove, h1, h2, Ne.symm h, ih]

theorem dremove_eq_of_dget_none {k : String} {l : Doc} (h : dget k l = Option.none) :
    dremove k l = l := by
  induction l with
  | nil => rfl
  | cons kv rest ih =>
    obtain ⟨k1, v⟩ := kv
    by_cases h1 : k1 = k
    · simp [dget, h1] at h
    · simp [dget, h1] at h
      simp [dremove, h1, ih h]

theorem dget_serialize {k : String} (h1 : k ≠ "_id") (h2 : k ≠ "id") (d : Doc) :
    dget k (serialize d) = dget k d := by
  unfold serialize
  by_cases hd : d = []
  · simp [hd]
  · simp only [hd, if_false]
    cases hid : dget "_id" d with
    | none => rfl
    | some v =>
      rw [dget_append, dget_dremove (Ne.symm h1)]
      cases hk : dget k d with
      | none => simp [dget, Ne.symm h2]
      | some w => rfl

theorem serialize_idCons (n : Nat) (d : Doc) (h : dget "_id" d = Option.none) :
    serialize (("_id", Value.oid n) :: d) = d ++ [("id", Value.str (Nat.repr n))] := by
  unfold serialize
  simp [dget, dremove, dremove_eq_of_dget_none h, Value.pyStr]

theorem findOne_append (l1 l2 : List Doc) (k : String) (v : Value) :
    findOne (l1 ++ l2) k v = (findOne l1 k v).or (findOne l2 k v) := by
  simp [findOne, List.find?_append]

theorem findOne_eq_none_iff {l : List Doc} {k : String} {v : Value} :
    findOne l k v = Option.none ↔ ∀ d ∈ l, ¬ dget k d = some v := by
  simp [findOne, List.find?_eq_none]

theorem findOne_mem {l : List Doc} {k : String} {v : Value} {d : Doc}
    (h : findOne l k v = some d) : d ∈ l ∧ dget k d = some v := by
  refine ⟨List.mem_of_find?_eq_some h, ?_⟩
  have h2 := List.find?_some h
  simpa using h2

theorem toDigitsCore_ne_nil {b : Nat} (fuel : Nat) :
    ∀ (n : Nat) (ds : List Char), ds ≠ [] → Nat.toDigitsCore b fuel n ds ≠ [] := by
  induction fuel with
  | zero =>
    intro n ds h
    simpa [Nat.toDigitsCore] using h
  | succ fuel ih =>
    intro n ds h
    unfold Nat.toDigitsCore
    by_cases hz : n / b = 0
    · simp [hz]
    · simp only [hz, if_false]
      exact ih (n / b) (Nat.digitChar (n % b) :: ds) (by simp)

theorem toDigits_ne_nil (b n : Nat) : Nat.toDigits b n ≠ [] := by
  unfold Nat.toDigits Nat.toDigitsCore
  by_cases hz : n / b = 0
  · simp [hz]
  · simp only [hz, if_false]
    exact toDigitsCore_ne_nil n (n / b) [Nat.digitChar (n % b)] (by simp)

theorem repr_ne_empty (n : Nat) : Nat.repr n ≠ "" := by
  unfold Nat.repr
  intro h
  apply toDigits_ne_nil 10 n
  have h2 := congrArg String.data h
  simpa [List.asString] using h2

theorem create_chapter_fresh (db : DB) (p : ChapterIn)
    (hfresh : findOne db.chapter "slug" (Value.str p.slug) = Option.none) :
    create_chapter db p = (insertChapter db p.model_dump, Except.ok ⟨"ok"⟩) := by
  unfold create_chapter
  rw [hfresh]

theorem findOne_insertChapter (db : DB) (p : ChapterIn)
    (hfresh : findOne db.chapter "slug" (Value.str p.slug) = Option.none) :
    findOne (insertChapter db p.model_dump).chapter "slug" (Value.str p.slug) =
      some (("_id", Value.oid db.nextId) :: p.model_dump) := by
  show findOne (db.chapter ++ [("_id", Value.oid db.nextId) :: p.model_dump])
      "slug" (Value.str p.slug) = _
  rw [findOne_append, hfresh]
  unfold findOne
  rw [List.find?_cons_of_pos]
  · rfl
  · simp [dget, ChapterIn.model_dump]

theorem get_chapter_roundtrip (db : DB) (p : ChapterIn)
    (hfresh : findOne db.chapter "slug" (Value.str p.slug) = Option.none) :
    get_chapter (create_chapter db p).1 p.slug =
      Except.ok (p.model_dump ++ [("id", Value.str (Nat.repr db.nextId))]) := by
  have h1 : (create_chapter db p).1 = insertChapter db p.model_dump := by
    rw [create_chapter_fresh db p hfresh]
  rw [h1]
  unfold get_chapter
  rw [findOne_insertChapter db p hfresh]
  exact congrArg Except.ok (serialize_idCons db.nextId p.model_dump rfl)

theorem seed_data_already (db : DB) (h : db.chapter ≠ []) :
    seed_data db = (db, ⟨"ok", "Already seeded"⟩) := by
  have htake : db.chapter.take 1 ≠ [] := by
    cases hc : db.chapter with
    | nil => exact absurd hc h
    | cons a l => simp
  unfold seed_data
  rw [if_pos htake]

/-! ### Claim theorems -/

/-- C2: `create_quiz_item` fails (with HTTP 400, detail "correct_index out
of range") if and only if `correct_index` is negative or at least
`len(options)`; any error leaves the store unchanged, and an in-range index
inserts the dumped item and returns `{"status": "ok"}`. -/
theorem C2_create_quiz_item_validation (db : DB) (item : QuizIn) :
    ((∃ e, (create_quiz_item db item).2 = Except.error e) ↔
      (item.correct_index < 0 ∨ (item.options.length : Int) ≤ item.correct_index)) ∧
    (∀ e, (create_quiz_item db item).2 = Except.error e →
      e = ⟨400, "correct_index out of range"⟩ ∧ (create_quiz_item db item).1 = db) ∧
    (0 ≤ item.correct_index → item.correct_index < (item.options.length : Int) →
      create_quiz_item db item =
        ({ db with
            quizquestion := db.quizquestion ++ [("_id", Value.oid db.nextId) :: item.model_dump]
            nextId := db.nextId + 1 }, Except.ok ⟨"ok"⟩)) := by
  unfold create_quiz_item
  by_cases hbad : item.correct_index < 0 ∨ (item.options.length : Int) ≤ item.correct_index
  · rw [if_pos hbad]
    refine ⟨by simpa using hbad, by simp, ?_⟩
    intro hlo hhi
    omega
  · rw [if_neg hbad]
    refine ⟨by simpa using hbad, by simp, ?_⟩
    intro hlo hhi
    rfl

/-- C2 witness: with two options and `correct_index = 1` the request
succeeds. -/
theorem C2_witness :
    (create_quiz_item emptyDB
      { chapter_slug := "c", question := "q", options := ["a", "b"],
        correct_index := 1, explanation := "e" }).2 = Except.ok ⟨"ok"⟩ := by
  have h := (C2_create_quiz_item_validation emptyDB
    { chapter_slug := "c", question := "q", options := ["a", "b"],
      correct_index := 1, explanation := "e" }).2.2 (by decide) (by decide)
  rw [h]

/-- C3 (code behavior at the failing input): a request whose `options` list
has a single entry and `correct_index = 0` is accepted by
`create_quiz_item` and inserted — the `min_items=2` bound declared on
`schemas.QuizQuestion.options` is absent from `QuizIn`, so nothing at the
quiz-creation interface rejects it. -/
theorem C3_single_option_accepted :
    (create_quiz_item emptyDB
      { chapter_slug := "c", question := "q", options := ["a"],
        correct_index := 0, explanation := "e" }).2 = Except.ok ⟨"ok"⟩ ∧
    ((create_quiz_item emptyDB
      { chapter_slug := "c", question := "q", options := ["a"],
        correct_index := 0, explanation := "e" }).1.quizquestion.map docOptionsLength) =
      [some 1] := by
  exact ⟨rfl, rfl⟩

/-- C6: `get_chapter` returns the 404 "Chapter not found" error exactly
when no chapter document carries the requested slug; the only error it
returns is that 404, and when a document is found it is returned
serialized. -/
theorem C6_get_chapter_404 (db : DB) (slug : String) :
    ((¬ ∃ d ∈ db.chapter, dget "slug" d = some (Value.str slug)) ↔
      get_chapter db slug = Except.error ⟨404, "Chapter not found"⟩) ∧
    (∀ e, get_chapter db slug = Except.error e → e = ⟨404, "Chapter not found"⟩) ∧
    (∀ d, findOne db.chapter "slug" (Value.str slug) = some d →
      get_chapter db slug = Except.ok (serialize d)) := by
  cases hf : findOne db.chapter "slug" (Value.str slug) with
  | none =>
    have hget : get_chapter db slug = Except.error ⟨404, "Chapter not found"⟩ := by
      unfold get_chapter
      rw [hf]
    refine ⟨iff_of_true ?_ hget, ?_, ?_⟩
    · rw [findOne_eq_none_iff] at hf
      simpa using hf
    · intro e he
      rw [hget] at he
      exact (Except.error.inj he).symm
    · intro d hd
      exact Option.noConfusion hd
  | some doc =>
    have hget : get_chapter db slug = Except.ok (serialize doc) := by
      unfold get_chapter
      rw [hf]
    have hmem := findOne_mem hf
    refine ⟨iff_of_false ?_ ?_, ?_, ?_⟩
    · intro hno
      exact hno ⟨doc, hmem.1, hmem.2⟩
    · rw [hget]
      simp
    · intro e he
      rw [hget] at he
      exact absurd he (by simp)
    · intro d hd
      rw [hget, Option.some.inj hd]

/-- C6 witness: fetching a slug absent from the store yields the 404. -/
theorem C6_witness :
    get_chapter emptyDB "does-not-exist" = Except.error ⟨404, "Chapter not found"⟩ :=
  ((C6_get_chapter_404 emptyDB "does-not-exist").1).mp (by simp [emptyDB])

/-- C7: `get_quiz_for_chapter` returns at most `limit` documents, each the
serialization of a stored quiz document whose `chapter_slug` equals the
requested slug; the omitted limit defaults to 20; and when nothing matches
(in particular for a slug of a non-existent chapter) it returns the empty
list rather than an error. -/
theorem C7_get_quiz_filter (db : DB) (slug : String) (limit : Nat) :
    (get_quiz_for_chapter db slug limit).length ≤ limit ∧
    (∀ v ∈ get_quiz_for_chapter db slug limit,
      dget "chapter_slug" v = some (Value.str slug)) ∧
    get_quiz_for_chapter db slug = get_quiz_for_chapter db slug 20 ∧
    ((∀ d ∈ db.quizquestion, ¬ dget "chapter_slug" d = some (Value.str slug)) →
      get_quiz_for_chapter db slug limit = []) := by
  refine ⟨?_, ?_, rfl, ?_⟩
  · unfold get_quiz_for_chapter
    rw [List.length_map, List.length_take]
    exact Nat.min_le_left _ _
  · intro v hv
    unfold get_quiz_for_chapter at hv
    obtain ⟨d, hd, rfl⟩ := List.mem_map.mp hv
    have hd2 := (List.take_sublist _ _).subset hd
    have hd3 := List.mem_filter.mp hd2
    rw [dget_serialize (by decide) (by decide)]
    simpa using hd3.2
  · intro hall
    unfold get_quiz_for_chapter
    have hnil : db.quizquestion.filter
        (fun d => decide (dget "chapter_slug" d = some (Value.str slug))) = [] := by
      rw [List.filter_eq_nil_iff]
      intro d hd
      simpa using hall d hd
    rw [hnil]
    simp

/-- C7 witness: an unknown slug yields the empty list. -/
theorem C7_witness : get_quiz_for_chapter emptyDB "nope" 5 = [] :=
  (C7_get_quiz_filter emptyDB "nope" 5).2.2.2 (by simp [emptyDB])

/-- C9: `test_database` is a total function of the store condition — every
condition (unavailable store, listing failure, working store) yields a
normal `StatusReport`; at most 10 collection names are ever reported, a
listing failure is rendered as descriptive text in the `database` field,
and a working store reports the first 10 collection names. -/
theorem C9_health_total (urlSet : Bool) (cond : DBCondition) :
    (test_database urlSet cond).collections.length ≤ 10 ∧
    (test_database urlSet cond).backend = "✅ Running" ∧
    (∀ name msg,
      (test_database urlSet (DBCondition.connected name (Except.error msg))).database =
        "⚠️  Connected but Error: " ++ msg.take 50) ∧
    (∀ name cols,
      (test_database urlSet (DBCondition.connected name (Except.ok cols))).collections =
        cols.take 10) := by
  refine ⟨?_, ?_, fun name msg => rfl, fun name cols => rfl⟩
  · cases cond with
    | unavailable => simp [test_database]
    | connected name listing =>
      cases listing with
      | error e => simp [test_database]
      | ok cols =>
        simp only [test_database, List.length_take]
        exact Nat.min_le_left _ _
  · cases cond with
    | unavailable => rfl
    | connected name listing => cases listing <;> rfl

/-- C9 witness: a working store with three collections reports at most 10
names. -/
theorem C9_witness :
    (test_database true
      (DBCondition.connected "bio" (Except.ok ["chapter", "quizquestion"]))).collections.length ≤
      10 :=
  (C9_health_total true (DBCondition.connected "bio" (Except.ok ["chapter", "quizquestion"]))).1

/-- C10: after seeding the empty store there are exactly three quiz
documents; each satisfies `0 <= correct_index < len(options)`, concretely
with correct indices 1, 1, 3 and four options apiece. -/
theorem C10_seed_quiz_in_bounds :
    (seed_data emptyDB).1.quizquestion.length = 3 ∧
    (seed_data emptyDB).1.quizquestion.all quizDocIndexOk = true ∧
    ((seed_data emptyDB).1.quizquestion.map (dget "correct_index")) =
      [some (Value.int 1), some (Value.int 1), some (Value.int 3)] ∧
    ((seed_data emptyDB).1.quizquestion.map docOptionsLength) = [some 4, some 4, some 4] := by
  exact ⟨rfl, rfl, rfl, rfl⟩

/-- C1: `seed_data` is idempotent — with any chapter present it returns
"Already seeded" leaving the store untouched; on a store with no chapters
it returns "Seeded" after inserting exactly one chapter (slug
"cell-structure") and appending exactly three quiz documents, each dumped
with `chapter_slug = "cell-structure"`; a second call then reports
"Already seeded" and changes nothing, so seeding an empty store twice
leaves one chapter and three quiz questions. -/
theorem C1_seed_idempotent (dbne dbe : DB)
    (hne : dbne.chapter ≠ []) (he : dbe.chapter = []) :
    seed_data dbne = (dbne, ⟨"ok", "Already seeded"⟩) ∧
    (seed_data dbe).2 = ⟨"ok", "Seeded"⟩ ∧
    (seed_data dbe).1.chapter = [("_id", Value.oid dbe.nextId) :: seedChapter.model_dump] ∧
    dget "slug" seedChapter.model_dump = some (Value.str "cell-structure") ∧
    (seed_data dbe).1.quizquestion =
      dbe.quizquestion ++
        [("_id", Value.oid (dbe.nextId + 1)) :: seedQ1.model_dump,
         ("_id", Value.oid (dbe.nextId + 2)) :: seedQ2.model_dump,
         ("_id", Value.oid (dbe.nextId + 3)) :: seedQ3.model_dump] ∧
    (∀ q ∈ sample_questions,
      dget "chapter_slug" q.model_dump = some (Value.str "cell-structure")) ∧
    seed_data (seed_data dbe).1 = ((seed_data dbe).1, ⟨"ok", "Already seeded"⟩) ∧
    (dbe.quizquestion = [] →
      (seed_data dbe).1.chapter.length = 1 ∧ (seed_data dbe).1.quizquestion.length = 3) := by
  have hm : (seed_data dbe).2 = ⟨"ok", "Seeded"⟩ := by
    unfold seed_data
    rw [if_neg (by simp [he])]
  have hc : (seed_data dbe).1.chapter =
      [("_id", Value.oid dbe.nextId) :: seedChapter.model_dump] := by
    unfold seed_data
    rw [if_neg (by simp [he])]
    simp [sample_questions, insertChapter, insertQuiz, he]
  have hq : (seed_data dbe).1.quizquestion =
      dbe.quizquestion ++
        [("_id", Value.oid (dbe.nextId + 1)) :: seedQ1.model_dump,
         ("_id", Value.oid (dbe.nextId + 2)) :: seedQ2.model_dump,
         ("_id", Value.oid (dbe.nextId + 3)) :: seedQ3.model_dump] := by
    unfold seed_data
    rw [if_neg (by simp [he])]
    simp [sample_questions, insertChapter, insertQuiz]
  refine ⟨seed_data_already dbne hne, hm, hc, rfl, hq, by decide,
    seed_data_already (seed_data dbe).1 (by rw [hc]; simp), ?_⟩
  intro hqe
  constructor
  · rw [hc]
    rfl
  · rw [hq, hqe]
    rfl

/-- C1 witness: seeding the empty store reports "Seeded"; a store already
holding a chapter is left unchanged with "Already seeded". -/
theorem C1_witness :
    (seed_data emptyDB).2 = ⟨"ok", "Seeded"⟩ ∧
    seed_data ⟨[[("slug", Value.str "x")]], [], 5⟩ =
      (⟨[[("slug", Value.str "x")]], [], 5⟩, ⟨"ok", "Already seeded"⟩) := by
  have h := C1_seed_idempotent ⟨[[("slug", Value.str "x")]], [], 5⟩ emptyDB (by simp) rfl
  exact ⟨h.2.1, h.1⟩

/-- C4: `create_chapter` fails with 400 "Slug already exists" whenever a
chapter with the same slug is already stored (inserting nothing — the
lookup precedes the insert), succeeds by appending the dumped payload when
the slug is fresh, and hence two sequential calls with the same slug yield
success then conflict, the second leaving the store unchanged. -/
theorem C4_create_chapter_unique (db : DB) (p : ChapterIn)
    (hfresh : findOne db.chapter "slug" (Value.str p.slug) = Option.none) :
    (∀ db2, findOne db2.chapter "slug" (Value.str p.slug) ≠ Option.none →
      create_chapter db2 p = (db2, Except.error ⟨400, "Slug already exists"⟩)) ∧
    create_chapter db p =
      ({ db with
          chapter := db.chapter ++ [("_id", Value.oid db.nextId) :: p.model_dump]
          nextId := db.nextId + 1 }, Except.ok ⟨"ok"⟩) ∧
    create_chapter (create_chapter db p).1 p =
      ((create_chapter db p).1, Except.error ⟨400, "Slug already exists"⟩) := by
  have hsucc := create_chapter_fresh db p hfresh
  have h1 : (create_chapter db p).1 = insertChapter db p.model_dump := by
    rw [hsucc]
  refine ⟨?_, hsucc, ?_⟩
  · intro db2 hne
    unfold create_chapter
    cases h2 : findOne db2.chapter "slug" (Value.str p.slug) with
    | none => exact absurd h2 hne
    | some d => rfl
  · rw [h1]
    unfold create_chapter
    rw [findOne_insertChapter db p hfresh]

/-- C4 witness: creating slug "x" twice on the empty store yields success
then the conflict error. -/
theorem C4_witness :
    (create_chapter emptyDB ⟨"x", "T", "S", [], []⟩).2 = Except.ok ⟨"ok"⟩ ∧
    (create_chapter (create_chapter emptyDB ⟨"x", "T", "S", [], []⟩).1
        ⟨"x", "T", "S", [], []⟩).2 =
      Except.error ⟨400, "Slug already exists"⟩ := by
  have h := C4_create_chapter_unique emptyDB ⟨"x", "T", "S", [], []⟩ rfl
  exact ⟨by rw [h.2.1], by rw [h.2.2]⟩

/-- C5: fetching a freshly created chapter returns exactly the dumped
creation fields followed by an `id` field holding the stringified internal
identifier; that string is non-empty, `id` is absent from the creation
input, `_id` is absent from the view, and the `title`, `summary`,
`objectives` and `sections` of the view are the ones supplied. -/
theorem C5_serialization_roundtrip (db : DB) (p : ChapterIn)
    (hfresh : findOne db.chapter "slug" (Value.str p.slug) = Option.none) :
    get_chapter (create_chapter db p).1 p.slug =
      Except.ok (p.model_dump ++ [("id", Value.str (Nat.repr db.nextId))]) ∧
    Nat.repr db.nextId ≠ "" ∧
    dget "id" p.model_dump = Option.none ∧
    dget "_id" (p.model_dump ++ [("id", Value.str (Nat.repr db.nextId))]) = Option.none ∧
    dget "title" (p.model_dump ++ [("id", Value.str (Nat.repr db.nextId))]) =
      some (Value.str p.title) ∧
    dget "summary" (p.model_dump ++ [("id", Value.str (Nat.repr db.nextId))]) =
      some (Value.str p.summary) ∧
    dget "objectives" (p.model_dump ++ [("id", Value.str (Nat.repr db.nextId))]) =
      some (Value.strList p.objectives) ∧
    dget "sections" (p.model_dump ++ [("id", Value.str (Nat.repr db.nextId))]) =
      some (Value.dictList p.sections) := by
  exact ⟨get_chapter_roundtrip db p hfresh, repr_ne_empty db.nextId,
    rfl, rfl, rfl, rfl, rfl, rfl⟩

/-- C5 witness: the concrete round trip on the empty store, with id "0". -/
theorem C5_witness :
    get_chapter (create_chapter emptyDB ⟨"y", "T", "S", ["o"], [[("heading", "h")]]⟩).1 "y" =
      Except.ok
        [("slug", Value.str "y"), ("title", Value.str "T"), ("summary", Value.str "S"),
         ("objectives", Value.strList ["o"]), ("sections", Value.dictList [[("heading", "h")]]),
         ("id", Value.str "0")] := by
  have h := (C5_serialization_roundtrip emptyDB ⟨"y", "T", "S", ["o"], [[("heading", "h")]]⟩ rfl).1
  exact h

/-- C8: a `ChapterIn` built without `objectives`/`sections` carries empty
lists for them, and fetching the chapter it creates returns empty-list
values for both; a `QuizIn` built without `difficulty` carries
`"OSN-N"`, which `create_quiz_item` stores in the inserted document. -/
theorem C8_creation_defaults (db : DB) (s t u cs q ex : String)
    (opts : List String) (ci : Int)
    (hfresh : findOne db.chapter "slug" (Value.str s) = Option.none)
    (hlo : 0 ≤ ci) (hhi : ci < (opts.length : Int)) :
    ({ slug := s, title := t, summary := u : ChapterIn }).objectives = [] ∧
    ({ slug := s, title := t, summary := u : ChapterIn }).sections = [] ∧
    get_chapter (create_chapter db { slug := s, title := t, summary := u }).1 s =
      Except.ok
        [("slug", Value.str s), ("title", Value.str t), ("summary", Value.str u),
         ("objectives", Value.strList []), ("sections", Value.dictList []),
         ("id", Value.str (Nat.repr db.nextId))] ∧
    ({ chapter_slug := cs, question := q, options := opts, correct_index := ci,
        explanation := ex : QuizIn }).difficulty = some "OSN-N" ∧
    (create_quiz_item db
        { chapter_slug := cs, question := q, options := opts, correct_index := ci,
          explanation := ex }).1.quizquestion =
      db.quizquestion ++
        [[("_id", Value.oid db.nextId), ("chapter_slug", Value.str cs),
          ("question", Value.str q), ("options", Value.strList opts),
          ("correct_index", Value.int ci), ("explanation", Value.str ex),
          ("difficulty", Value.str "OSN-N")]] := by
  have hround := get_chapter_roundtrip db ⟨s, t, u, [], []⟩ hfresh
  have hquiz : create_quiz_item db
      { chapter_slug := cs, question := q, options := opts, correct_index := ci,
        explanation := ex } =
      (insertQuiz db
        (QuizIn.model_dump
          { chapter_slug := cs, question := q, options := opts, correct_index := ci,
            explanation := ex }), Except.ok ⟨"ok"⟩) := by
    unfold create_quiz_item
    rw [if_neg (show ¬(ci < 0 ∨ (opts.length : Int) ≤ ci) by omega)]
  have hquiz1 : (create_quiz_item db
      { chapter_slug := cs, question := q, options := opts, correct_index := ci,
        explanation := ex }).1 =
      insertQuiz db
        (QuizIn.model_dump
          { chapter_slug := cs, question := q, options := opts, correct_index := ci,
            explanation := ex }) := by
    rw [hquiz]
  exact ⟨rfl, rfl, hround, rfl, by rw [hquiz1]; rfl⟩

/-- C8 witness: concrete defaults — empty objectives, and the stored quiz
document carrying difficulty "OSN-N". -/
theorem C8_witness :
    ({ slug := "z", title := "T", summary := "S" : ChapterIn }).objectives = [] ∧
    (create_quiz_item emptyDB
        { chapter_slug := "c", question := "q", options := ["a", "b"],
          correct_index := 0, explanation := "e" }).1.quizquestion =
      [[("_id", Value.oid 0), ("chapter_slug", Value.str "c"), ("question", Value.str "q"),
        ("options", Value.strList ["a", "b"]), ("correct_index", Value.int 0),
        ("explanation", Value.str "e"), ("difficulty", Value.str "OSN-N")]] := by
  have h := C8_creation_defaults emptyDB "z" "T" "S" "c" "q" "e" ["a", "b"] 0
    rfl (by decide) (by decide)
  exact ⟨h.1, h.2.2.2.2⟩

end Bio
